import Mathlib

/-!
Verification development for the QGCLink::QGCSend downlink dispatch loop of
the ANCL autopilot (src/drivers/qgclink/QGCSend.cc).  The C++ code is
shallowly embedded: the mode enumerations, the outbound packet queue, the
per-stream encoders, the rate scheduler and the flush loop are translated
into executable Lean definitions, and the specification's claims are proved
or refuted against them.
-/

namespace QGC

/-- Embeds heli::AUTOPILOT_MODE as used in QGCSend.cc: the three servo-source
modes switched on in send_status, plus the one-past-the-end sentinel
NUM_AUTOPILOT_MODES used by the constructor as the unset value. -/
inductive AUTOPILOT_MODE where
  | MODE_DIRECT_MANUAL
  | MODE_SCALED_MANUAL
  | MODE_AUTOMATIC_CONTROL
  | NUM_AUTOPILOT_MODES
deriving DecidableEq, Repr

/-- Embeds heli::PILOT_MODE as used in QGCSend.cc, with the sentinel
NUM_PILOT_MODES. -/
inductive PILOT_MODE where
  | PILOT_MANUAL
  | PILOT_AUTO
  | NUM_PILOT_MODES
deriving DecidableEq, Repr

/-- Embeds IMU::GX3_MODE as used in QGCSend.cc, with the sentinel
NUM_GX3_MODES. -/
inductive GX3_MODE where
  | STARTUP
  | INIT
  | RUNNING
  | GX3_ERROR
  | NUM_GX3_MODES
deriving DecidableEq, Repr

/-- Embeds heli::Controller_Mode as used in QGCSend.cc, with the sentinel
Num_Controller_Modes. -/
inductive Controller_Mode where
  | Mode_Attitude_Stabilization_PID
  | Mode_Position_Hold_PID
  | Mode_Position_Hold_SBF
  | Num_Controller_Modes
deriving DecidableEq, Repr

/-- Embeds heli::Trajectory_Type as switched on in send_status. -/
inductive Trajectory_Type where
  | Point_Trajectory
  | Line_Trajectory
  | Circle_Trajectory
  | Other_Trajectory
deriving DecidableEq, Repr

/-- Modelled from the spec: wire-protocol codes of the external MAVLink
codec (UALBERTA_* enum values).  The codec is an external collaborator; the
exact numeric values are irrelevant to the claims, only that every valid
code is distinct from the reserved unknown code 255 that send_status uses
as the default of each switch. -/
def UALBERTA_MODE_MANUAL_DIRECT : Nat := 1
def UALBERTA_MODE_MANUAL_SCALED : Nat := 2
def UALBERTA_MODE_AUTOMATIC_CONTROL : Nat := 3
def UALBERTA_PILOT_MANUAL : Nat := 1
def UALBERTA_PILOT_AUTO : Nat := 2
def UALBERTA_GX3_STARTUP : Nat := 1
def UALBERTA_GX3_INIT : Nat := 2
def UALBERTA_GX3_RUNNING_VALID : Nat := 3
def UALBERTA_GX3_RUNNING_ERROR : Nat := 4
def UALBERTA_ATTITUDE_PID : Nat := 1
def UALBERTA_TRANSLATION_PID : Nat := 2
def UALBERTA_TRANSLATION_SBF : Nat := 3
def UALBERTA_POINT : Nat := 1
def UALBERTA_LINE : Nat := 2
def UALBERTA_CIRCLE : Nat := 3
def UALBERTA_AHRS : Nat := 0
def UALBERTA_NAV_FILTER : Nat := 1

/-- A parameter record as consumed by send_param and
send_requested_params: component id, parameter id string, and value (the
float payload is carried opaquely as an integer code; the codec is
external). -/
structure Parameter where
  compID : Nat
  paramID : List Char
  value : Int
deriving DecidableEq, Repr

/-- One serialized outbound wire message (OutboundPacket), tagged by the
message type that QGCSend.cc packs, carrying the fields the claims are
about.  Payload fields that come from external producers and never
influence control flow (RC values, rpm, control effort, calibration
arrays) are left opaque. -/
inductive Packet where
  | heartbeat
  | status (servo filter pilot control att trajectory : Nat)
  | paramValue (compID : Nat) (paramID : List Char) (value : Int)
      (count index : Int)
  | rcChannelsRaw
  | rcChannelsScaled
  | controlEffort
  | rcCalibration
  | driverMsg (payload : Nat)
  | statustext (severity : Nat) (text : List Char)
deriving DecidableEq, Repr

/-- QGCLink::QGCSend::should_run (QGCSend.cc lines 273-278), with C++
truncated division and remainder on int embedded as Int.tdiv / Int.tmod. -/
def should_run (stream_rate send_rate count : Int) : Bool :=
  if stream_rate = 0 || stream_rate > send_rate then false
  else count.tmod (send_rate.tdiv stream_rate) = 0

/-- Inner loop of QGCLink::QGCSend::send_param (lines 227-235): one
PARAM_VALUE packet per parameter of one source, threading the running
index. -/
def send_param_inner : List Parameter → Int → Int → List Packet
  | [], _, _ => []
  | p :: ps, num_params, index =>
      Packet.paramValue p.compID p.paramID p.value num_params index ::
        send_param_inner ps num_params (index + 1)

/-- Outer loop of send_param over the ordered list of parameter sources;
the index counter continues across sources. -/
def send_param_outer : List (List Parameter) → Int → Int → List Packet
  | [], _, _ => []
  | ps :: rest, num_params, index =>
      send_param_inner ps num_params index ++
        send_param_outer rest num_params (index + (ps.length : Int))

/-- QGCLink::QGCSend::send_param (lines 212-236): num_params is the total
over all sources, computed first; then one packet per parameter carrying
(num_params, running index). -/
def send_param (plist : List (List Parameter)) : List Packet :=
  send_param_outer plist ((plist.map List.length).sum : Nat) 0

/-- QGCLink::QGCSend::send_requested_params (lines 238-252): pops the
requested-parameter FIFO until empty, pushing one PARAM_VALUE packet per
entry with count 1 and index -1. -/
def send_requested_params : List Parameter → List Packet
  | [] => []
  | p :: ps =>
      Packet.paramValue p.compID p.paramID p.value 1 (-1) ::
        send_requested_params ps

/-- boost::algorithm::starts_with(input, test): input begins with test,
comparing characters case-sensitively. -/
def starts_with : List Char → List Char → Bool
  | _, [] => true
  | [], _ :: _ => false
  | c :: cs, t :: ts => c = t && starts_with cs ts

/-- std::string::resize(n): truncate to n characters, or pad with NUL
characters up to length n. -/
def string_resize (s : List Char) (n : Nat) : List Char :=
  s.take n ++ List.replicate (n - s.length) (Char.ofNat 0)

/-- The literal severity marker tested by send_console_message. -/
def criticalMarker : List Char := String.toList "Critical"

/-- QGCLink::QGCSend::send_console_message (lines 477-488): the message is
resized to 50 characters, and the wire severity is 255 when the resized
text begins with the marker, else 0. -/
def send_console_message (message : List Char) : Packet :=
  Packet.statustext
    (if starts_with (string_resize message 50) criticalMarker then 255 else 0)
    (string_resize message 50)

/-- The flush loop of QGCSend::send (lines 185-204) from send attempt i
onward: while the queue is non-empty, send the front packet and pop it;
a transport fault (ok gives false for that attempt) throws out of the
while loop into the catch, so the faulting packet is not popped and the
rest of the queue is left untouched.  Returns (packets sent, remaining
queue). -/
def flushFrom (ok : Nat → Bool) : List Packet → Nat → List Packet × List Packet
  | [], _ => ([], [])
  | p :: rest, i =>
      if ok i then
        let r := flushFrom ok rest (i + 1)
        (p :: r.1, r.2)
      else ([], p :: rest)

/-- The whole flush: the try/catch around the send loop of QGCSend::send.
The catch swallows the transport fault, so flush is a total function. -/
def flush (q : List Packet) (ok : Nat → Bool) : List Packet × List Packet :=
  flushFrom ok q 0

/-- The state of a QGCLink::QGCSend object: the parent pointer (opaque id),
the five cached mode fields, the construction timestamp, the heap-allocated
send queue, and whether the attitude_source_connection member holds a live
subscription. -/
structure QGCSendState where
  qgc : Nat
  servo_source : AUTOPILOT_MODE
  pilot_mode : PILOT_MODE
  filter_state : GX3_MODE
  control_mode : Controller_Mode
  attitude_source : Bool
  startTime : Nat
  send_queue : List Packet
  attitude_source_connection : Bool
deriving DecidableEq, Repr

/-- The QGCSend constructor (QGCSend.cc lines 50-60): each mode cache is
initialized to its one-past-the-end enumerator, attitude_source to true,
startTime to the current clock, and a fresh empty send queue is
allocated. -/
def QGCSend_init (parent : Nat) (now : Nat) : QGCSendState :=
  { qgc := parent
    servo_source := AUTOPILOT_MODE.NUM_AUTOPILOT_MODES
    pilot_mode := PILOT_MODE.NUM_PILOT_MODES
    filter_state := GX3_MODE.NUM_GX3_MODES
    control_mode := Controller_Mode.Num_Controller_Modes
    attitude_source := true
    startTime := now
    send_queue := []
    attitude_source_connection := false }

/-- The QGCSend copy constructor (lines 62-73): copies qgc and startTime in
the initializer list, the five mode caches through their getters, and
allocates a fresh queue initialized with a copy of the source queue
contents; the connection member is default-constructed (no live
subscription). -/
def QGCSend_copy (other : QGCSendState) : QGCSendState :=
  { qgc := other.qgc
    startTime := other.startTime
    servo_source := other.servo_source
    pilot_mode := other.pilot_mode
    filter_state := other.filter_state
    control_mode := other.control_mode
    attitude_source := other.attitude_source
    send_queue := other.send_queue
    attitude_source_connection := false }

/-- QGCSend::operator= (lines 79-93): copies only the five mode caches;
startTime, the send queue and the connection member are untouched.  (The
pointer self-comparison short-circuit returns the object unchanged, which
coincides with running the copy on itself.) -/
def QGCSend_assign (this other : QGCSendState) : QGCSendState :=
  { this with
    servo_source := other.servo_source
    pilot_mode := other.pilot_mode
    filter_state := other.filter_state
    control_mode := other.control_mode
    attitude_source := other.attitude_source }

/-- Values queried from external producers during send_status: the
servo_switch pilot mode (the authoritative pilot-mode producer) and the
Control trajectory type.  Opaque payload fields (rpm, collective) are
omitted; they never influence control flow. -/
structure StatusInputs where
  switch_pilot_mode : PILOT_MODE
  trajectory : Trajectory_Type
deriving DecidableEq, Repr

/-- The servo-source switch of send_status (lines 353-368): uint8 preset to
255, overwritten only for the three mapped enumerators. -/
def qgc_servo_source_wire : AUTOPILOT_MODE → Nat
  | AUTOPILOT_MODE.MODE_DIRECT_MANUAL => UALBERTA_MODE_MANUAL_DIRECT
  | AUTOPILOT_MODE.MODE_SCALED_MANUAL => UALBERTA_MODE_MANUAL_SCALED
  | AUTOPILOT_MODE.MODE_AUTOMATIC_CONTROL => UALBERTA_MODE_AUTOMATIC_CONTROL
  | _ => 255

/-- The pilot-mode switch of send_status (lines 373-384). -/
def qgc_pilot_mode_wire : PILOT_MODE → Nat
  | PILOT_MODE.PILOT_MANUAL => UALBERTA_PILOT_MANUAL
  | PILOT_MODE.PILOT_AUTO => UALBERTA_PILOT_AUTO
  | _ => 255

/-- The trajectory switch of send_status (lines 387-401). -/
def qgc_trajectory_wire : Trajectory_Type → Nat
  | Trajectory_Type.Point_Trajectory => UALBERTA_POINT
  | Trajectory_Type.Line_Trajectory => UALBERTA_LINE
  | Trajectory_Type.Circle_Trajectory => UALBERTA_CIRCLE
  | _ => 255

/-- The filter-state switch of send_status (lines 404-421). -/
def qgc_filter_state_wire : GX3_MODE → Nat
  | GX3_MODE.STARTUP => UALBERTA_GX3_STARTUP
  | GX3_MODE.INIT => UALBERTA_GX3_INIT
  | GX3_MODE.RUNNING => UALBERTA_GX3_RUNNING_VALID
  | GX3_MODE.GX3_ERROR => UALBERTA_GX3_RUNNING_ERROR
  | _ => 255

/-- The control-mode switch of send_status (lines 424-438). -/
def qgc_control_mode_wire : Controller_Mode → Nat
  | Controller_Mode.Mode_Attitude_Stabilization_PID => UALBERTA_ATTITUDE_PID
  | Controller_Mode.Mode_Position_Hold_PID => UALBERTA_TRANSLATION_PID
  | Controller_Mode.Mode_Position_Hold_SBF => UALBERTA_TRANSLATION_SBF
  | _ => 255

/-- The attitude-source ternary of line 444: true selects the NAV_FILTER
wire code, false the AHRS one; both are valid wire values, there is no
unknown branch. -/
def attitude_source_wire (b : Bool) : Nat :=
  if b then UALBERTA_NAV_FILTER else UALBERTA_AHRS

/-- QGCLink::QGCSend::send_status (lines 350-450).  Every wire field is
derived from the cached mode snapshot, with one exception: when the cached
pilot_mode still equals NUM_PILOT_MODES the pilot mode is re-queried from
the servo_switch producer (lines 370-372). -/
def send_status (s : QGCSendState) (ext : StatusInputs) : Packet :=
  let pm := if s.pilot_mode = PILOT_MODE.NUM_PILOT_MODES
            then ext.switch_pilot_mode else s.pilot_mode
  Packet.status
    (qgc_servo_source_wire s.servo_source)
    (qgc_filter_state_wire s.filter_state)
    (qgc_pilot_mode_wire pm)
    (qgc_control_mode_wire s.control_mode)
    (attitude_source_wire s.attitude_source)
    (qgc_trajectory_wire ext.trajectory)

/-- Per-iteration external inputs of the dispatch loop: the three
runtime-tunable stream rates read fresh each iteration, the values the
status encoder queries, the two parameter sources read by send_param, the
pre-serialized messages each active driver contributes, and the outcome of
each transport send attempt of this iteration's flush. -/
structure IterEnv where
  heartbeat_rate : Int
  rc_channel_rate : Int
  control_output_rate : Int
  status_ext : StatusInputs
  control_params : List Parameter
  heli_params : List Parameter
  driver_msgs : List (List Nat)
  transport_ok : Nat → Bool

/-- The state threaded through iterations of the while loop of
QGCSend::send: the object state (including the send queue), the latches
and queues producers fill in, and the loop counter. -/
structure LoopState where
  snd : QGCSendState
  param_recv : Bool
  requested_params : List Parameter
  rc_cal_requested : Bool
  message_queue : List (List Char)
  loop_count : Int

/-- The base rate: int send_rate = 200 (line 97). -/
def base_send_rate : Int := 200

/-- The packets pushed onto the send queue during one iteration of the
while loop (lines 134-184), in push order: heartbeat and status when the
heartbeat stream fires; the full parameter dump when the param_recv latch
was set; the two RC-channel packets when that stream fires; the control
effort packet when that stream fires; one reply per requested parameter
when that FIFO is non-empty; the calibration packet when that latch was
set; every driver-contributed message; and at most one console message. -/
def iter_enqueues (st : LoopState) (env : IterEnv) : List Packet :=
  (if should_run env.heartbeat_rate base_send_rate st.loop_count
   then [Packet.heartbeat, send_status st.snd env.status_ext] else []) ++
  (if st.param_recv
   then send_param [env.control_params, env.heli_params] else []) ++
  (if should_run env.rc_channel_rate base_send_rate st.loop_count
   then [Packet.rcChannelsRaw, Packet.rcChannelsScaled] else []) ++
  (if should_run env.control_output_rate base_send_rate st.loop_count
   then [Packet.controlEffort] else []) ++
  (if st.requested_params.isEmpty then []
   else send_requested_params st.requested_params) ++
  (if st.rc_cal_requested then [Packet.rcCalibration] else []) ++
  (env.driver_msgs.flatten.map Packet.driverMsg) ++
  (match st.message_queue with
   | [] => []
   | m :: _ => [send_console_message m])

/-- The contents of the send queue at the moment the flush loop of an
iteration starts: whatever survived earlier iterations followed by this
iteration's enqueues. -/
def iteration_preflush (st : LoopState) (env : IterEnv) : List Packet :=
  st.snd.send_queue ++ iter_enqueues st env

/-- One full iteration of the while loop of QGCSend::send (lines 128-209):
enqueue the active streams onto the persistent send queue, clear the
serviced latches, drain the serviced FIFOs, flush the queue through the
transport, and increment the loop counter.  Returns the new state and the
packets actually handed to the transport. -/
def send_iteration (st : LoopState) (env : IterEnv) : LoopState × List Packet :=
  let fl := flush (iteration_preflush st env) env.transport_ok
  ({ snd := { st.snd with send_queue := fl.2 }
     param_recv := false
     requested_params := []
     rc_cal_requested := false
     message_queue := st.message_queue.tail
     loop_count := st.loop_count + 1 }, fl.1)

/-- Running the dispatch loop over a list of per-iteration environments,
collecting the packets sent by each iteration. -/
def run : LoopState → List IterEnv → List (List Packet) × LoopState
  | st, [] => ([], st)
  | st, e :: es =>
      let r1 := send_iteration st e
      let r2 := run r1.1 es
      (r1.2 :: r2.1, r2.2)

/-- The enqueue trace of a run: the packets each iteration would push,
following the same state trajectory as run. -/
def run_enqueues : LoopState → List IterEnv → List (List Packet)
  | _, [] => []
  | st, e :: es =>
      iter_enqueues st e :: run_enqueues (send_iteration st e).1 es

/-! ## Scheduling lemmas for should_run -/

lemma should_run_false_left (r b n : Int) (h : r = 0) : should_run r b n = false := by
  simp [should_run, h]

lemma should_run_false_right (r b n : Int) (h : b < r) : should_run r b n = false := by
  simp [should_run, h]

lemma should_run_eq_tmod (r b n : Int) (h1 : r ≠ 0) (h2 : r ≤ b) :
    should_run r b n = decide (n.tmod (b.tdiv r) = 0) := by
  simp [should_run, h1, not_lt.mpr h2]

lemma should_run_iff_dvd (r b n : Int) (h1 : r ≠ 0) (h2 : r ≤ b) :
    should_run r b n = true ↔ (b.tdiv r) ∣ n := by
  rw [should_run_eq_tmod r b n h1 h2, decide_eq_true_eq, ← Int.dvd_iff_tmod_eq_zero]

lemma tdiv_pos_of_le (r b : Int) (h1 : 0 < r) (h2 : r ≤ b) : 0 < b.tdiv r := by
  rw [Int.tdiv_eq_ediv (le_of_lt (lt_of_lt_of_le h1 h2)) (le_of_lt h1)]
  calc 0 < r / r := by rw [Int.ediv_self (ne_of_gt h1)]; exact one_pos
  _ ≤ b / r := Int.ediv_le_ediv h1 h2

lemma tdiv_mul_self (r b : Int) (h3 : b.tmod r = 0) :
    r * b.tdiv r = b :=
  Int.mul_tdiv_cancel_of_tmod_eq_zero h3

/-- Counting multiples of p in a window of length m * p. -/
lemma card_dvd_Ico (p N m : Int) (hp : 0 < p) (hm : 0 ≤ m) :
    (((Finset.Ico N (N + m * p)).filter (fun x => p ∣ x)).card : Int) = m := by
  rw [Int.Ico_filter_dvd_card N (N + m * p) hp]
  have hpQ : (p : ℚ) ≠ 0 := by exact_mod_cast ne_of_gt hp
  have : ((N + m * p : Int) : ℚ) / (p : ℚ) = (N : ℚ) / (p : ℚ) + (m : ℚ) := by
    push_cast
    field_simp
  rw [this]
  have : ⌈(N : ℚ) / (p : ℚ) + (m : ℚ)⌉ = ⌈(N : ℚ) / (p : ℚ)⌉ + m := Int.ceil_add_int _ m
  rw [this]
  omega

/-- C3: should_run(r, b, n) is false when r = 0 or r > b; otherwise it is
true iff n mod (b / r) = 0 under C++ truncated division; it is true at
n = 0 for any enabled rate; and when r evenly divides b it is true exactly
at the multiples of b / r and fires exactly r times in any b consecutive
iterations. -/
theorem C3_should_run_schedule (r b n : Int) (hb : 0 < b) (hn : 0 ≤ n) :
    ((r = 0 ∨ b < r) → should_run r b n = false) ∧
    (r ≠ 0 → r ≤ b → (should_run r b n = true ↔ n.tmod (b.tdiv r) = 0)) ∧
    (0 < r → r ≤ b → should_run r b 0 = true) ∧
    (0 < r → r ≤ b → b.tmod r = 0 →
      ((should_run r b n = true ↔ (b.tdiv r) ∣ n) ∧
       ∀ N : Int, 0 ≤ N →
         (((Finset.Ico N (N + b)).filter
             (fun x => should_run r b x = true)).card : Int) = r)) := by
  refine ⟨?_, ?_, ?_, ?_⟩
  · rintro (h | h)
    · exact should_run_false_left r b n h
    · exact should_run_false_right r b n h
  · intro h1 h2
    rw [should_run_eq_tmod r b n h1 h2, decide_eq_true_eq]
  · intro h1 h2
    rw [should_run_iff_dvd r b 0 (ne_of_gt h1) h2]
    exact dvd_zero _
  · intro h1 h2 h3
    refine ⟨should_run_iff_dvd r b n (ne_of_gt h1) h2, ?_⟩
    intro N hN
    have hp : 0 < b.tdiv r := tdiv_pos_of_le r b h1 h2
    have hfe : (Finset.Ico N (N + b)).filter (fun x => should_run r b x = true) =
        (Finset.Ico N (N + b)).filter (fun x => (b.tdiv r) ∣ x) := by
      apply Finset.filter_congr
      intro x _
      simp only [should_run_iff_dvd r b x (ne_of_gt h1) h2]
    rw [hfe]
    have hb' : N + b = N + r * b.tdiv r := by
      rw [tdiv_mul_self r b h3]
    rw [hb']
    exact card_dvd_Ico (b.tdiv r) N r hp (le_of_lt h1)

/-- Witness for C3 at the spec's own scenario (base 200, rate 2): fires at
iteration 0 and again at iteration 100, 2 times in the first 200
iterations. -/
theorem C3_should_run_schedule_witness :
    should_run 2 200 0 = true ∧ should_run 2 200 100 = true ∧
    (((Finset.Ico (0 : Int) (0 + 200)).filter
        (fun x => should_run 2 200 x = true)).card : Int) = 2 := by
  have h0 := C3_should_run_schedule 2 200 0 (by decide) (by decide)
  have h100 := C3_should_run_schedule 2 200 100 (by decide) (by decide)
  refine ⟨h0.2.2.1 (by decide) (by decide), ?_, ?_⟩
  · exact ((h100.2.2.2 (by decide) (by decide) (by decide)).1).mpr (by decide)
  · exact (h0.2.2.2 (by decide) (by decide) (by decide)).2 0 (by decide)

/-! ## Concrete demonstration states -/

/-- An iteration environment in which every scheduled stream is disabled
(rate 0), no driver contributes, and the transport never faults. -/
def quiet_env : IterEnv :=
  { heartbeat_rate := 0
    rc_channel_rate := 0
    control_output_rate := 0
    status_ext := { switch_pilot_mode := PILOT_MODE.PILOT_MANUAL
                    trajectory := Trajectory_Type.Point_Trajectory }
    control_params := []
    heli_params := []
    driver_msgs := []
    transport_ok := fun _ => true }

/-- quiet_env with a transport fault on the first send attempt. -/
def faulty_env : IterEnv :=
  { quiet_env with transport_ok := fun i => i != 0 }

/-- A freshly started loop whose console mailbox already holds the spec's
two scenario messages. -/
def console_demo_state : LoopState :=
  { snd := QGCSend_init 0 0
    param_recv := false
    requested_params := []
    rc_cal_requested := false
    message_queue := [String.toList "Critical: overheat",
                      String.toList "Warning: low battery"]
    loop_count := 0 }

/-! ## Flush lemmas -/

lemma flushFrom_allok (ok : Nat → Bool) (h : ∀ i, ok i = true) :
    ∀ (q : List Packet) (i : Nat), flushFrom ok q i = (q, []) := by
  intro q
  induction q with
  | nil => intro i; rfl
  | cons p rest ih =>
      intro i
      simp [flushFrom, h i, ih (i + 1)]

/-- A flush whose every transport call succeeds sends the whole queue in
FIFO order and leaves it empty. -/
lemma flush_allok (q : List Packet) (ok : Nat → Bool) (h : ∀ i, ok i = true) :
    flush q ok = (q, []) :=
  flushFrom_allok ok h q 0

lemma flushFrom_fault (ok : Nat → Bool) :
    ∀ (q : List Packet) (k i : Nat), k < q.length →
      (∀ j, j < k → ok (i + j) = true) → ok (i + k) = false →
      flushFrom ok q i = (q.take k, q.drop k) := by
  intro q
  induction q with
  | nil => intro k i hk _ _; exact absurd hk (by simp)
  | cons p rest ih =>
      intro k i hk hpre hfail
      cases k with
      | zero =>
          have h0 : ok i = false := by simpa using hfail
          simp [flushFrom, h0]
      | succ k =>
          have h0 : ok i = true := by
            have := hpre 0 (Nat.succ_pos k)
            simpa using this
          have hrec := ih k (i + 1) (by simpa using Nat.lt_of_succ_lt_succ hk)
            (by intro j hj; have := hpre (j + 1) (Nat.succ_lt_succ hj); simpa [Nat.add_assoc, Nat.add_comm 1 j] using this)
            (by have : i + 1 + k = i + (k + 1) := by omega
                rw [this]; exact hfail)
          simp [flushFrom, h0, hrec]

/-- A flush whose k-th transport call (0-based) faults sends exactly the
first k packets; the faulting packet and everything behind it stay in the
queue. -/
lemma flush_fault (q : List Packet) (ok : Nat → Bool) (k : Nat)
    (hk : k < q.length) (hpre : ∀ i, i < k → ok i = true)
    (hfail : ok k = false) : flush q ok = (q.take k, q.drop k) := by
  have := flushFrom_fault ok q k 0 hk (by intro j hj; simpa using hpre j hj)
    (by simpa using hfail)
  simpa [flush] using this

lemma flushFrom_take_drop (ok : Nat → Bool) :
    ∀ (q : List Packet) (i : Nat), ∃ k, flushFrom ok q i = (q.take k, q.drop k) := by
  intro q
  induction q with
  | nil => intro i; exact ⟨0, rfl⟩
  | cons p rest ih =>
      intro i
      by_cases h : ok i = true
      · obtain ⟨k, hk⟩ := ih (i + 1)
        exact ⟨k + 1, by simp [flushFrom, h, hk]⟩
      · exact ⟨0, by simp [flushFrom, Bool.eq_false_iff.mpr h]⟩

/-- Every flush sends a prefix of the queue, in FIFO order, and leaves
exactly the matching suffix queued. -/
lemma flush_take_drop (q : List Packet) (ok : Nat → Bool) :
    ∃ k, flush q ok = (q.take k, q.drop k) :=
  flushFrom_take_drop ok q 0

/-- C1: the claim's description of a mid-flush transport fault is wrong on
the code.  Concretely, with three queued packets and a fault on the second
send, the flush sends only the first packet: the faulting packet is not
dropped (it stays at the front of the queue, to be retried by the next
iteration's flush, since the pop comes after the throwing send), and the
packets behind it are not attempted in that iteration (the catch sits
outside the send loop). -/
theorem C1_transport_fault_counterexample :
    flush [Packet.heartbeat, Packet.rcChannelsRaw, Packet.controlEffort]
        (fun i => i != 1) =
      ([Packet.heartbeat], [Packet.rcChannelsRaw, Packet.controlEffort]) ∧
    Packet.rcChannelsRaw ∈
      (flush [Packet.heartbeat, Packet.rcChannelsRaw, Packet.controlEffort]
        (fun i => i != 1)).2 ∧
    Packet.controlEffort ∉
      (flush [Packet.heartbeat, Packet.rcChannelsRaw, Packet.controlEffort]
        (fun i => i != 1)).1 := by
  decide

/-- C1 (amended): when the transport send of packet k + 1 of the queue
faults, the k packets already sent remain sent; the faulting packet is not
popped and, together with every packet behind it, remains in the queue
without further send attempts that iteration (the fault is caught outside
the send loop and does not escape); the next fault-free flush then
re-attempts and sends all of them, starting with the faulting packet. -/
theorem C1_transport_fault_amended (q : List Packet) (ok : Nat → Bool) (k : Nat)
    (hk : k < q.length) (hpre : ∀ i, i < k → ok i = true)
    (hfail : ok k = false) :
    (flush q ok).1 = q.take k ∧
    (flush q ok).2 = q.drop k ∧
    (∀ ok2 : Nat → Bool, (∀ i, ok2 i = true) →
      flush (flush q ok).2 ok2 = (q.drop k, [])) := by
  have h := flush_fault q ok k hk hpre hfail
  refine ⟨by rw [h], by rw [h], ?_⟩
  intro ok2 h2
  rw [h]
  exact flush_allok _ ok2 h2

/-- Witness for C1 (amended) on a concrete three-packet queue with a fault
on the second send. -/
theorem C1_transport_fault_amended_witness :
    (flush [Packet.heartbeat, Packet.rcChannelsRaw, Packet.controlEffort]
        (fun i => i != 1)).1 = [Packet.heartbeat] ∧
    (flush [Packet.heartbeat, Packet.rcChannelsRaw, Packet.controlEffort]
        (fun i => i != 1)).2 = [Packet.rcChannelsRaw, Packet.controlEffort] := by
  have h := C1_transport_fault_amended
    [Packet.heartbeat, Packet.rcChannelsRaw, Packet.controlEffort]
    (fun i => i != 1) 1 (by decide)
    (by intro i hi; interval_cases i; rfl) (by rfl)
  exact ⟨by rw [h.1]; rfl, by rw [h.2.1]; rfl⟩

/-! ## Iteration-level queue lemmas -/

lemma send_iteration_queue (st : LoopState) (env : IterEnv) :
    (send_iteration st env).1.snd.send_queue =
      (flush (iteration_preflush st env) env.transport_ok).2 := rfl

lemma send_iteration_sent (st : LoopState) (env : IterEnv) :
    (send_iteration st env).2 =
      (flush (iteration_preflush st env) env.transport_ok).1 := rfl

lemma send_iteration_queue_allok (st : LoopState) (env : IterEnv)
    (h : ∀ i, env.transport_ok i = true) :
    (send_iteration st env).1.snd.send_queue = [] := by
  rw [send_iteration_queue, flush_allok _ _ h]

lemma send_iteration_sent_of_empty (st : LoopState) (env : IterEnv)
    (hq : st.snd.send_queue = [])
    (h : ∀ i, env.transport_ok i = true) :
    (send_iteration st env).2 = iter_enqueues st env := by
  rw [send_iteration_sent, flush_allok _ _ h, iteration_preflush, hq,
    List.nil_append]

lemma run_allok (envs : List IterEnv) :
    ∀ st : LoopState, st.snd.send_queue = [] →
      (∀ e ∈ envs, ∀ i, e.transport_ok i = true) →
      (run st envs).1 = run_enqueues st envs ∧
      (run st envs).2.snd.send_queue = [] := by
  induction envs with
  | nil => intro st hq _; exact ⟨rfl, hq⟩
  | cons e es ih =>
      intro st hq hok
      have he : ∀ i, e.transport_ok i = true := hok e (List.mem_cons_self e es)
      have hq1 : (send_iteration st e).1.snd.send_queue = [] :=
        send_iteration_queue_allok st e he
      have hrest := ih (send_iteration st e).1 hq1
        (by intro x hx; exact hok x (List.mem_cons_of_mem e hx))
      constructor
      · show (send_iteration st e).2 :: (run (send_iteration st e).1 es).1 =
          iter_enqueues st e :: run_enqueues (send_iteration st e).1 es
        rw [send_iteration_sent_of_empty st e hq he, hrest.1]
      · exact hrest.2

/-- C10: a flush that completes without fault empties the send queue, so in
a fault-free run every iteration starts with an empty queue and hands the
transport exactly the packets it enqueued itself; after a faulting
iteration the unsent packets (the faulting one included) stay queued and
precede the next iteration's enqueues. -/
theorem C10_queue_invariant :
    (∀ (st : LoopState) (env : IterEnv),
      (∀ i, env.transport_ok i = true) →
      (send_iteration st env).1.snd.send_queue = [] ∧
      (st.snd.send_queue = [] →
        (send_iteration st env).2 = iter_enqueues st env)) ∧
    (∀ (st : LoopState) (envs : List IterEnv),
      st.snd.send_queue = [] →
      (∀ e ∈ envs, ∀ i, e.transport_ok i = true) →
      (run st envs).1 = run_enqueues st envs ∧
      (run st envs).2.snd.send_queue = []) ∧
    (∀ (st : LoopState) (env env2 : IterEnv) (k : Nat),
      k < (iteration_preflush st env).length →
      (∀ i, i < k → env.transport_ok i = true) →
      env.transport_ok k = false →
      (send_iteration st env).1.snd.send_queue =
        (iteration_preflush st env).drop k ∧
      iteration_preflush (send_iteration st env).1 env2 =
        (iteration_preflush st env).drop k ++
          iter_enqueues (send_iteration st env).1 env2) := by
  refine ⟨?_, ?_, ?_⟩
  · intro st env h
    exact ⟨send_iteration_queue_allok st env h,
      fun hq => send_iteration_sent_of_empty st env hq h⟩
  · intro st envs hq hok
    exact run_allok envs st hq hok
  · intro st env env2 k hk hpre hfail
    have h := flush_fault (iteration_preflush st env) env.transport_ok k hk hpre hfail
    have hq : (send_iteration st env).1.snd.send_queue =
        (iteration_preflush st env).drop k := by
      rw [send_iteration_queue, h]
    exact ⟨hq, by rw [iteration_preflush, hq]⟩

/-- Witness for C10: a fault-free iteration of the console demo empties the
queue, and an iteration whose first send faults keeps the whole pre-flush
queue. -/
theorem C10_queue_invariant_witness :
    (send_iteration console_demo_state quiet_env).1.snd.send_queue = [] ∧
    (send_iteration console_demo_state faulty_env).1.snd.send_queue =
      (iteration_preflush console_demo_state faulty_env).drop 0 := by
  refine ⟨(C10_queue_invariant.1 console_demo_state quiet_env (fun _ => rfl)).1, ?_⟩
  exact (C10_queue_invariant.2.2 console_demo_state faulty_env quiet_env 0
    (by decide) (fun i hi => absurd hi (Nat.not_lt_zero i)) rfl).1

/-! ## Parameter encoder lemmas -/

lemma send_param_inner_length (n : Int) :
    ∀ (ps : List Parameter) (idx : Int),
      (send_param_inner ps n idx).length = ps.length := by
  intro ps
  induction ps with
  | nil => intro idx; rfl
  | cons p rest ih => intro idx; simp [send_param_inner, ih (idx + 1)]

lemma send_param_inner_getElem (n : Int) :
    ∀ (ps : List Parameter) (idx : Int) (k : Nat),
      (send_param_inner ps n idx)[k]? = (ps[k]?).map
        (fun p => Packet.paramValue p.compID p.paramID p.value n (idx + (k : Int))) := by
  intro ps
  induction ps with
  | nil => intro idx k; rfl
  | cons p rest ih =>
      intro idx k
      cases k with
      | zero => simp [send_param_inner]
      | succ k =>
          have heq : idx + 1 + (k : Int) = idx + ((k : Nat) + 1 : Nat) := by
            push_cast; ring
          simp only [send_param_inner, List.getElem?_cons_succ, ih (idx + 1) k, heq]

lemma send_param_inner_append (n : Int) :
    ∀ (a b : List Parameter) (idx : Int),
      send_param_inner (a ++ b) n idx =
        send_param_inner a n idx ++ send_param_inner b n (idx + (a.length : Int)) := by
  intro a
  induction a with
  | nil => intro b idx; simp [send_param_inner]
  | cons p rest ih =>
      intro b idx
      have heq : idx + 1 + (rest.length : Int) = idx + ((rest.length : Nat) + 1 : Nat) := by
        push_cast; ring
      simp [send_param_inner, ih b (idx + 1), heq]

lemma send_param_outer_eq_inner (n : Int) :
    ∀ (pss : List (List Parameter)) (idx : Int),
      send_param_outer pss n idx = send_param_inner pss.flatten n idx := by
  intro pss
  induction pss with
  | nil => intro idx; rfl
  | cons ps rest ih =>
      intro idx
      simp [send_param_outer, List.flatten_cons, send_param_inner_append, ih]

lemma send_param_eq_inner (plist : List (List Parameter)) :
    send_param plist =
      send_param_inner plist.flatten ((plist.map List.length).sum : Nat) 0 := by
  rw [send_param, send_param_outer_eq_inner]

lemma send_param_length (plist : List (List Parameter)) :
    (send_param plist).length = plist.flatten.length := by
  rw [send_param_eq_inner, send_param_inner_length]

/-- C5: servicing the full-dump latch enqueues exactly one packet per
parameter over all sources, each carrying the total parameter count and a
zero-based index assigned in source-then-item order, and the latch is
cleared by the iteration that serviced it. -/
theorem C5_send_param_dump (plist : List (List Parameter)) :
    (send_param plist).length = plist.flatten.length ∧
    (plist.map List.length).sum = plist.flatten.length ∧
    (∀ (k : Nat) (p : Parameter), plist.flatten[k]? = some p →
      (send_param plist)[k]? = some (Packet.paramValue p.compID p.paramID
        p.value ((plist.flatten.length : Nat) : Int) (k : Int))) ∧
    (∀ (st : LoopState) (env : IterEnv),
      (send_iteration st env).1.param_recv = false) := by
  refine ⟨send_param_length plist, (List.length_flatten plist).symm, ?_, ?_⟩
  · intro k p hp
    have hsum : ((plist.map List.length).sum : Nat) = plist.flatten.length :=
      (List.length_flatten plist).symm
    rw [send_param_eq_inner, send_param_inner_getElem, hp, hsum]
    simp
  · intro st env; rfl

/-- Witness for C5 at the spec scenario: sources of sizes 3 and 2 produce
5 packets, and the last one carries count 5 and index 4. -/
theorem C5_send_param_dump_witness :
    (send_param [[⟨1, [], 10⟩, ⟨1, [], 11⟩, ⟨1, [], 12⟩],
                 [⟨2, [], 20⟩, ⟨2, [], 21⟩]]).length = 5 ∧
    (send_param [[⟨1, [], 10⟩, ⟨1, [], 11⟩, ⟨1, [], 12⟩],
                 [⟨2, [], 20⟩, ⟨2, [], 21⟩]])[4]? =
      some (Packet.paramValue 2 [] 21 5 4) := by
  have h := C5_send_param_dump [[⟨1, [], 10⟩, ⟨1, [], 11⟩, ⟨1, [], 12⟩],
    [⟨2, [], 20⟩, ⟨2, [], 21⟩]]
  refine ⟨by rw [h.1]; rfl, ?_⟩
  have h4 := h.2.2.1 4 ⟨2, [], 21⟩ (by rfl)
  simpa using h4

/-- The reply packet send_requested_params builds for one queued request
(lines 245-246): count 1 and index -1. -/
def requested_reply (p : Parameter) : Packet :=
  Packet.paramValue p.compID p.paramID p.value 1 (-1)

lemma send_requested_params_eq_map (reqs : List Parameter) :
    send_requested_params reqs = reqs.map requested_reply := by
  induction reqs with
  | nil => rfl
  | cons p rest ih => simp [send_requested_params, requested_reply, ih]

/-- C6: when the single-parameter request FIFO is non-empty at its service
point, the iteration enqueues exactly one reply per entry, in FIFO order,
each carrying count 1 and index -1, and leaves the FIFO empty. -/
theorem C6_requested_params_drain (st : LoopState) (env : IterEnv)
    (h : st.requested_params ≠ []) :
    (∀ reqs : List Parameter, send_requested_params reqs =
      reqs.map (fun p => Packet.paramValue p.compID p.paramID p.value 1 (-1))) ∧
    (∃ pre post : List Packet, iter_enqueues st env =
      pre ++ st.requested_params.map requested_reply ++ post) ∧
    (send_iteration st env).1.requested_params = [] := by
  refine ⟨?_, ?_, rfl⟩
  · intro reqs
    rw [send_requested_params_eq_map]
    rfl
  · refine ⟨(if should_run env.heartbeat_rate base_send_rate st.loop_count
       then [Packet.heartbeat, send_status st.snd env.status_ext] else []) ++
      (if st.param_recv
       then send_param [env.control_params, env.heli_params] else []) ++
      (if should_run env.rc_channel_rate base_send_rate st.loop_count
       then [Packet.rcChannelsRaw, Packet.rcChannelsScaled] else []) ++
      (if should_run env.control_output_rate base_send_rate st.loop_count
       then [Packet.controlEffort] else []),
      (if st.rc_cal_requested then [Packet.rcCalibration] else []) ++
      (env.driver_msgs.flatten.map Packet.driverMsg) ++
      (match st.message_queue with
       | [] => []
       | m :: _ => [send_console_message m]), ?_⟩
    have hne : st.requested_params.isEmpty = false :=
      List.isEmpty_eq_false.mpr h
    rw [iter_enqueues, hne]
    simp [send_requested_params_eq_map]

/-- Witness for C6 on a two-entry request FIFO. -/
theorem C6_requested_params_drain_witness :
    (send_iteration { console_demo_state with
      requested_params := [⟨3, [], 30⟩, ⟨4, [], 31⟩] } quiet_env).1.requested_params = [] := by
  exact (C6_requested_params_drain { console_demo_state with
    requested_params := [⟨3, [], 30⟩, ⟨4, [], 31⟩] } quiet_env (by decide)).2.2

/-! ## Status encoder: the sentinel fallback (C2) -/

/-- A cache state as it stands if only the pilot-mode notification has
arrived: pilot_mode holds a real value while control_mode still holds its
unset sentinel from the constructor. -/
def pilot_known_cache : QGCSendState :=
  { QGCSend_init 0 0 with pilot_mode := PILOT_MODE.PILOT_MANUAL }

/-- C2 counterexample: the claim attributes the sentinel-triggered direct
query to control_mode, but the code (lines 370-372) checks pilot_mode.
With control_mode still at its unset sentinel and pilot_mode known, the
status encoder output is independent of the externally queried pilot mode
(no direct query takes effect), and its control-mode wire field is the
unknown code 255 derived from the cached sentinel, while the pilot field
comes from the cache. -/
theorem C2_control_mode_fallback_counterexample :
    send_status pilot_known_cache
        { switch_pilot_mode := PILOT_MODE.PILOT_AUTO
          trajectory := Trajectory_Type.Point_Trajectory } =
      send_status pilot_known_cache
        { switch_pilot_mode := PILOT_MODE.PILOT_MANUAL
          trajectory := Trajectory_Type.Point_Trajectory } ∧
    pilot_known_cache.control_mode = Controller_Mode.Num_Controller_Modes ∧
    send_status pilot_known_cache
        { switch_pilot_mode := PILOT_MODE.PILOT_AUTO
          trajectory := Trajectory_Type.Point_Trajectory } =
      Packet.status 255 255 UALBERTA_PILOT_MANUAL 255
        UALBERTA_NAV_FILTER UALBERTA_POINT := by
  decide

/-- C2 (amended): the startup-window fallback is keyed on pilot_mode, not
control_mode: whenever the cached pilot_mode still holds its unset
sentinel, the status encoder uses the directly queried pilot mode from the
servo switch; otherwise it uses the cache; every other field (control_mode
included) is always encoded from the cached value. -/
theorem C2_pilot_mode_fallback (s : QGCSendState) (ext : StatusInputs) :
    (s.pilot_mode = PILOT_MODE.NUM_PILOT_MODES →
      send_status s ext = Packet.status
        (qgc_servo_source_wire s.servo_source)
        (qgc_filter_state_wire s.filter_state)
        (qgc_pilot_mode_wire ext.switch_pilot_mode)
        (qgc_control_mode_wire s.control_mode)
        (attitude_source_wire s.attitude_source)
        (qgc_trajectory_wire ext.trajectory)) ∧
    (s.pilot_mode ≠ PILOT_MODE.NUM_PILOT_MODES →
      send_status s ext = Packet.status
        (qgc_servo_source_wire s.servo_source)
        (qgc_filter_state_wire s.filter_state)
        (qgc_pilot_mode_wire s.pilot_mode)
        (qgc_control_mode_wire s.control_mode)
        (attitude_source_wire s.attitude_source)
        (qgc_trajectory_wire ext.trajectory)) := by
  constructor
  · intro h
    rw [send_status]
    simp [h]
  · intro h
    rw [send_status]
    simp [h]

/-- Witness for C2 (amended): the fresh cache still holds the pilot-mode
sentinel, so the encoder takes the queried value; the pilot-known cache
does not, so it takes the cached one. -/
theorem C2_pilot_mode_fallback_witness :
    send_status (QGCSend_init 0 0) quiet_env.status_ext =
      Packet.status 255 255 (qgc_pilot_mode_wire PILOT_MODE.PILOT_MANUAL)
        255 UALBERTA_NAV_FILTER UALBERTA_POINT ∧
    send_status pilot_known_cache
        { switch_pilot_mode := PILOT_MODE.PILOT_AUTO
          trajectory := Trajectory_Type.Point_Trajectory } =
      Packet.status 255 255 (qgc_pilot_mode_wire PILOT_MODE.PILOT_MANUAL)
        255 UALBERTA_NAV_FILTER UALBERTA_POINT := by
  constructor
  · rw [(C2_pilot_mode_fallback (QGCSend_init 0 0) quiet_env.status_ext).1 (by decide)]
    rfl
  · rw [(C2_pilot_mode_fallback pilot_known_cache
      { switch_pilot_mode := PILOT_MODE.PILOT_AUTO
        trajectory := Trajectory_Type.Point_Trajectory }).2 (by decide)]
    rfl

/-! ## Initial sentinels (C8) -/

/-- C8 counterexample: attitude_source breaks the claim.  It is a boolean
initialized to true by the constructor (line 56), and true is a valid
value: the status encoder maps it straight to the NAV_FILTER wire code
(line 444), not to the reserved unknown code, so reading it before any
notification yields a valid enumerated value, not an unset sentinel. -/
theorem C8_unset_sentinels_counterexample :
    (QGCSend_init 0 0).attitude_source = true ∧
    attitude_source_wire (QGCSend_init 0 0).attitude_source =
      UALBERTA_NAV_FILTER ∧
    UALBERTA_NAV_FILTER ≠ 255 := by
  decide

/-- C8 (amended): the four enumerated ModeSnapshot fields (servo_source,
pilot_mode, filter_state, control_mode) initialize to their one-past-the-
end unset sentinels, which the status encoder never treats as valid (each
maps to the reserved unknown wire code 255); attitude_source, however, is
a boolean with no unset sentinel: it initializes to true, which encodes to
the valid NAV_FILTER wire code. -/
theorem C8_unset_sentinels (parent now : Nat) :
    (QGCSend_init parent now).servo_source =
      AUTOPILOT_MODE.NUM_AUTOPILOT_MODES ∧
    (QGCSend_init parent now).pilot_mode = PILOT_MODE.NUM_PILOT_MODES ∧
    (QGCSend_init parent now).filter_state = GX3_MODE.NUM_GX3_MODES ∧
    (QGCSend_init parent now).control_mode =
      Controller_Mode.Num_Controller_Modes ∧
    qgc_servo_source_wire AUTOPILOT_MODE.NUM_AUTOPILOT_MODES = 255 ∧
    qgc_pilot_mode_wire PILOT_MODE.NUM_PILOT_MODES = 255 ∧
    qgc_filter_state_wire GX3_MODE.NUM_GX3_MODES = 255 ∧
    qgc_control_mode_wire Controller_Mode.Num_Controller_Modes = 255 ∧
    (QGCSend_init parent now).attitude_source = true ∧
    attitude_source_wire true ≠ 255 := by
  refine ⟨rfl, rfl, rfl, rfl, rfl, rfl, rfl, rfl, rfl, by decide⟩

/-! ## Copy construction and assignment (C9) -/

/-- A fully populated QGCSend object used to exhibit the copy behavior. -/
def copy_demo : QGCSendState :=
  { qgc := 1
    servo_source := AUTOPILOT_MODE.MODE_DIRECT_MANUAL
    pilot_mode := PILOT_MODE.PILOT_AUTO
    filter_state := GX3_MODE.RUNNING
    control_mode := Controller_Mode.Mode_Position_Hold_PID
    attitude_source := false
    startTime := 42
    send_queue := [Packet.heartbeat]
    attitude_source_connection := true }

/-- C9 counterexample: the copy constructor DOES copy the start time (its
initializer list has startTime(other.startTime), line 64), contradicting
the claim that copying never copies it; the fresh queue is also
initialized with a copy of the source queue's contents. -/
theorem C9_copy_semantics_counterexample :
    (QGCSend_copy copy_demo).startTime = copy_demo.startTime ∧
    copy_demo.startTime = 42 ∧
    (QGCSend_copy copy_demo).send_queue = [Packet.heartbeat] := by
  decide

/-- C9 (amended): the copy constructor duplicates the five cached mode
fields, the parent pointer, the start time, and the queue contents into a
freshly allocated queue, but never the live notification subscription;
copy assignment copies only the five mode fields, leaving the target's
start time, send queue and subscription unchanged; self-assignment leaves
the object unchanged. -/
theorem C9_copy_semantics (s t : QGCSendState) :
    QGCSend_copy s = { s with attitude_source_connection := false } ∧
    QGCSend_assign t s = { t with
      servo_source := s.servo_source
      pilot_mode := s.pilot_mode
      filter_state := s.filter_state
      control_mode := s.control_mode
      attitude_source := s.attitude_source } ∧
    (QGCSend_assign t s).startTime = t.startTime ∧
    (QGCSend_assign t s).send_queue = t.send_queue ∧
    (QGCSend_assign t s).attitude_source_connection =
      t.attitude_source_connection ∧
    (QGCSend_copy s).attitude_source_connection = false ∧
    QGCSend_assign s s = s := by
  exact ⟨rfl, rfl, rfl, rfl, rfl, rfl, rfl⟩

/-! ## Console encoder lemmas (C7) -/

lemma string_resize_nil (n : Nat) :
    string_resize [] n = List.replicate n (Char.ofNat 0) := by
  simp [string_resize]

lemma string_resize_cons (c : Char) (cs : List Char) (m : Nat) :
    string_resize (c :: cs) (m + 1) = c :: string_resize cs m := by
  simp [string_resize, Nat.succ_sub_succ]

/-- Testing the marker on the resized text is the same as testing it on the
original message, for any marker that fits in the field and contains no NUL
character: truncation at 50 keeps the first 8 characters and NUL padding
can never complete the marker. -/
lemma starts_with_string_resize (test : List Char) :
    ∀ (msg : List Char) (n : Nat), test.length ≤ n →
      (∀ c ∈ test, c ≠ Char.ofNat 0) →
      starts_with (string_resize msg n) test = starts_with msg test := by
  induction test with
  | nil =>
      intro msg n _ _
      cases string_resize msg n <;> cases msg <;> rfl
  | cons t ts ih =>
      intro msg n hlen hnul
      cases n with
      | zero => exact absurd hlen (by simp)
      | succ m =>
          cases msg with
          | nil =>
              rw [string_resize_nil]
              have ht : t ≠ Char.ofNat 0 := hnul t (List.mem_cons_self t ts)
              simp [List.replicate_succ, starts_with, Ne.symm ht]
          | cons c cs =>
              rw [string_resize_cons]
              show (decide (c = t) && starts_with (string_resize cs m) ts) =
                (decide (c = t) && starts_with cs ts)
              rw [ih cs m (Nat.le_of_succ_le_succ hlen)
                (fun x hx => hnul x (List.mem_cons_of_mem t hx))]

/-- C7: the console encoder truncates or NUL-pads every message to the
fixed 50-character wire field, derives the wire severity from a
case-sensitive test for the literal marker at the start of the message
(255 for messages beginning with the marker, 0 for all others), and in the
spec's scenario the two pushed messages are flushed one per iteration, in
push order, with severities 255 then 0. -/
theorem C7_console_encoder (msg : List Char) :
    send_console_message msg = Packet.statustext
      (if starts_with msg criticalMarker then 255 else 0)
      (string_resize msg 50) ∧
    (string_resize msg 50).length = 50 ∧
    (msg.length ≤ 50 → string_resize msg 50 =
      msg ++ List.replicate (50 - msg.length) (Char.ofNat 0)) ∧
    (50 ≤ msg.length → string_resize msg 50 = msg.take 50) ∧
    (run console_demo_state [quiet_env, quiet_env]).1 =
      [[Packet.statustext 255
          (string_resize (String.toList "Critical: overheat") 50)],
       [Packet.statustext 0
          (string_resize (String.toList "Warning: low battery") 50)]] := by
  refine ⟨?_, ?_, ?_, ?_, ?_⟩
  · rw [send_console_message,
      starts_with_string_resize criticalMarker msg 50 (by decide) (by decide)]
  · simp [string_resize]
    omega
  · intro h
    simp [string_resize, List.take_of_length_le h]
  · intro h
    simp [string_resize, Nat.sub_eq_zero_of_le h]
  · decide

/-- Witness for C7 on the scenario's first message. -/
theorem C7_console_encoder_witness :
    send_console_message (String.toList "Critical: overheat") =
      Packet.statustext 255
        (string_resize (String.toList "Critical: overheat") 50) ∧
    string_resize (String.toList "Critical: overheat") 50 =
      String.toList "Critical: overheat" ++
        List.replicate 32 (Char.ofNat 0) := by
  have h := C7_console_encoder (String.toList "Critical: overheat")
  constructor
  · rw [h.1]
    decide
  · rw [h.2.2.1 (by decide)]
    decide

/-! ## Enqueue precedence order (C4) -/

/-- The precedence position of a packet's stream category in the fixed
enqueue order of one iteration: status/heartbeat, full parameter dump,
RC channels, control effort, single-parameter replies (index -1),
calibration, per-driver messages, console text. -/
def stream_rank : Packet → Nat
  | Packet.heartbeat => 0
  | Packet.status _ _ _ _ _ _ => 0
  | Packet.paramValue _ _ _ _ i => if i = -1 then 4 else 1
  | Packet.rcChannelsRaw => 2
  | Packet.rcChannelsScaled => 2
  | Packet.controlEffort => 3
  | Packet.rcCalibration => 5
  | Packet.driverMsg _ => 6
  | Packet.statustext _ _ => 7

/-- Whether a packet is a console STATUSTEXT message. -/
def is_console_packet : Packet → Bool
  | Packet.statustext _ _ => true
  | _ => false

lemma is_console_packet_iff_rank (p : Packet) :
    is_console_packet p = true ↔ stream_rank p = 7 := by
  cases p <;> simp [is_console_packet, stream_rank]
  split <;> omega

lemma mem_ite_nil {c : Prop} [Decidable c] {l : List Packet} {p : Packet}
    (hp : p ∈ (if c then l else [])) : p ∈ l := by
  by_cases h : c
  · rwa [if_pos h] at hp
  · rw [if_neg h] at hp
    exact absurd hp (List.not_mem_nil p)

lemma pairwise_rank_const :
    ∀ (l : List Packet) (c : Nat), (∀ p ∈ l, stream_rank p = c) →
      (l.map stream_rank).Pairwise (fun a b => a ≤ b) := by
  intro l
  induction l with
  | nil => intro c _; exact List.Pairwise.nil
  | cons p rest ih =>
      intro c hc
      refine List.Pairwise.cons ?_ (ih c (fun x hx => hc x (List.mem_cons_of_mem p hx)))
      intro b hb
      obtain ⟨x, hx, hbx⟩ := List.mem_map.mp hb
      rw [← hbx, hc p (List.mem_cons_self p rest),
        hc x (List.mem_cons_of_mem p hx)]

lemma pairwise_rank_append (l1 l2 : List Packet) (c : Nat)
    (H1 : ∀ p ∈ l1, stream_rank p ≤ c) (H2 : ∀ p ∈ l2, c ≤ stream_rank p)
    (P1 : (l1.map stream_rank).Pairwise (fun a b => a ≤ b))
    (P2 : (l2.map stream_rank).Pairwise (fun a b => a ≤ b)) :
    ((l1 ++ l2).map stream_rank).Pairwise (fun a b => a ≤ b) := by
  rw [List.map_append, List.pairwise_append]
  refine ⟨P1, P2, ?_⟩
  intro a ha b hb
  obtain ⟨x, hx, hax⟩ := List.mem_map.mp ha
  obtain ⟨y, hy, hby⟩ := List.mem_map.mp hb
  rw [← hax, ← hby]
  exact le_trans (H1 x hx) (H2 y hy)

/-- Prepending a constant-rank segment to a sorted, bounded-below tail. -/
lemma rank_sorted_cons_seg (l1 l2 : List Packet) (c1 c2 : Nat) (hle : c1 ≤ c2)
    (H1 : ∀ p ∈ l1, stream_rank p = c1)
    (S2 : (l2.map stream_rank).Pairwise (fun a b => a ≤ b))
    (B2 : ∀ p ∈ l2, c2 ≤ stream_rank p) :
    ((l1 ++ l2).map stream_rank).Pairwise (fun a b => a ≤ b) ∧
    (∀ p ∈ l1 ++ l2, c1 ≤ stream_rank p) := by
  constructor
  · refine pairwise_rank_append l1 l2 c1 (fun p hp => le_of_eq (H1 p hp))
      (fun p hp => le_trans hle (B2 p hp)) (pairwise_rank_const l1 c1 H1) S2
  · intro p hp
    rcases List.mem_append.mp hp with h | h
    · exact le_of_eq (H1 p h).symm
    · exact le_trans hle (B2 p h)

lemma send_param_inner_rank (n : Int) :
    ∀ (ps : List Parameter) (idx : Int), 0 ≤ idx →
      ∀ p ∈ send_param_inner ps n idx, stream_rank p = 1 := by
  intro ps
  induction ps with
  | nil => intro idx _ p hp; exact absurd hp (List.not_mem_nil p)
  | cons q rest ih =>
      intro idx hidx p hp
      rcases List.mem_cons.mp hp with h | h
      · rw [h, stream_rank]
        have : idx ≠ -1 := by omega
        simp [this]
      · exact ih (idx + 1) (by omega) p h

lemma send_param_rank (plist : List (List Parameter)) :
    ∀ p ∈ send_param plist, stream_rank p = 1 := by
  rw [send_param_eq_inner]
  exact send_param_inner_rank _ plist.flatten 0 le_rfl

lemma send_requested_params_rank (reqs : List Parameter) :
    ∀ p ∈ send_requested_params reqs, stream_rank p = 4 := by
  rw [send_requested_params_eq_map]
  intro p hp
  obtain ⟨x, _, hx⟩ := List.mem_map.mp hp
  rw [← hx, requested_reply, stream_rank]
  simp

/-- The per-iteration enqueue list is sorted by stream precedence,
whatever the state and environment. -/
lemma iter_enqueues_rank_sorted (st : LoopState) (env : IterEnv) :
    ((iter_enqueues st env).map stream_rank).Pairwise (fun a b => a ≤ b) := by
  have Hhb : ∀ p ∈ (if should_run env.heartbeat_rate base_send_rate st.loop_count
      then [Packet.heartbeat, send_status st.snd env.status_ext] else []),
      stream_rank p = 0 := by
    intro p hp
    rcases List.mem_cons.mp (mem_ite_nil hp) with h | h
    · rw [h]; rfl
    · rw [List.mem_singleton.mp h, send_status]; rfl
  have Hpar : ∀ p ∈ (if st.param_recv
      then send_param [env.control_params, env.heli_params] else []),
      stream_rank p = 1 :=
    fun p hp => send_param_rank _ p (mem_ite_nil hp)
  have Hrc : ∀ p ∈ (if should_run env.rc_channel_rate base_send_rate st.loop_count
      then [Packet.rcChannelsRaw, Packet.rcChannelsScaled] else []),
      stream_rank p = 2 := by
    intro p hp
    rcases List.mem_cons.mp (mem_ite_nil hp) with h | h
    · rw [h]; rfl
    · rw [List.mem_singleton.mp h]; rfl
  have Heff : ∀ p ∈ (if should_run env.control_output_rate base_send_rate st.loop_count
      then [Packet.controlEffort] else []), stream_rank p = 3 := by
    intro p hp
    rw [List.mem_singleton.mp (mem_ite_nil hp)]; rfl
  have Hreq : ∀ p ∈ (if st.requested_params.isEmpty then []
      else send_requested_params st.requested_params), stream_rank p = 4 := by
    intro p hp
    by_cases h : st.requested_params.isEmpty
    · rw [if_pos h] at hp
      exact absurd hp (List.not_mem_nil p)
    · rw [if_neg h] at hp
      exact send_requested_params_rank _ p hp
  have Hcal : ∀ p ∈ (if st.rc_cal_requested then [Packet.rcCalibration] else []),
      stream_rank p = 5 := by
    intro p hp
    rw [List.mem_singleton.mp (mem_ite_nil hp)]; rfl
  have Hdrv : ∀ p ∈ env.driver_msgs.flatten.map Packet.driverMsg,
      stream_rank p = 6 := by
    intro p hp
    obtain ⟨x, _, hx⟩ := List.mem_map.mp hp
    rw [← hx]; rfl
  have Hcon : ∀ p ∈ (match st.message_queue with
      | [] => []
      | m :: _ => [send_console_message m]), stream_rank p = 7 := by
    intro p hp
    cases hmq : st.message_queue with
    | nil => rw [hmq] at hp; exact absurd hp (List.not_mem_nil p)
    | cons m rest =>
        rw [hmq] at hp
        rw [List.mem_singleton.mp hp, send_console_message]; rfl
  have h8 : ((match st.message_queue with
      | [] => []
      | m :: _ => [send_console_message m]).map stream_rank).Pairwise
        (fun a b => a ≤ b) ∧
      ∀ p ∈ (match st.message_queue with
      | [] => []
      | m :: _ => [send_console_message m]), 7 ≤ stream_rank p :=
    ⟨pairwise_rank_const _ 7 Hcon, fun p hp => le_of_eq (Hcon p hp).symm⟩
  have h7 := rank_sorted_cons_seg _ _ 6 7 (by omega) Hdrv h8.1 h8.2
  have h6 := rank_sorted_cons_seg _ _ 5 6 (by omega) Hcal h7.1 h7.2
  have h5 := rank_sorted_cons_seg _ _ 4 5 (by omega) Hreq h6.1 h6.2
  have h4 := rank_sorted_cons_seg _ _ 3 4 (by omega) Heff h5.1 h5.2
  have h3 := rank_sorted_cons_seg _ _ 2 3 (by omega) Hrc h4.1 h4.2
  have h2 := rank_sorted_cons_seg _ _ 1 2 (by omega) Hpar h3.1 h3.2
  have h1 := rank_sorted_cons_seg _ _ 0 1 (by omega) Hhb h2.1 h2.2
  rw [iter_enqueues]
  simp only [List.append_assoc]
  exact h1.1

/-- At most one console packet is enqueued per iteration. -/
lemma iter_enqueues_console_count (st : LoopState) (env : IterEnv) :
    (iter_enqueues st env).countP is_console_packet ≤ 1 := by
  rw [iter_enqueues]
  simp only [List.append_assoc, List.countP_append]
  have z1 : ∀ (c : Prop) [Decidable c] (l : List Packet),
      (∀ p ∈ l, stream_rank p ≠ 7) →
      (if c then l else []).countP is_console_packet = 0 := by
    intro c hc l hl
    rw [List.countP_eq_zero]
    intro p hp
    intro hcon
    exact hl p (mem_ite_nil hp) ((is_console_packet_iff_rank p).mp hcon)
  have zc : ∀ l : List Packet, (∀ p ∈ l, stream_rank p ≠ 7) →
      l.countP is_console_packet = 0 := by
    intro l hl
    rw [List.countP_eq_zero]
    intro p hp hcon
    exact hl p hp ((is_console_packet_iff_rank p).mp hcon)
  have c1 := z1 (should_run env.heartbeat_rate base_send_rate st.loop_count = true)
    [Packet.heartbeat, send_status st.snd env.status_ext] ?g1
  case g1 =>
    intro p hp
    rcases List.mem_cons.mp hp with h | h
    · rw [h]; decide
    · rw [List.mem_singleton.mp h, send_status]; simp [stream_rank]
  have c2 := z1 (st.param_recv = true)
    (send_param [env.control_params, env.heli_params])
    (fun p hp => by rw [send_param_rank _ p hp]; omega)
  have c3 := z1 (should_run env.rc_channel_rate base_send_rate st.loop_count = true)
    [Packet.rcChannelsRaw, Packet.rcChannelsScaled] ?g3
  case g3 =>
    intro p hp
    rcases List.mem_cons.mp hp with h | h
    · rw [h]; decide
    · rw [List.mem_singleton.mp h]; decide
  have c4 := z1 (should_run env.control_output_rate base_send_rate st.loop_count = true)
    [Packet.controlEffort]
    (fun p hp => by rw [List.mem_singleton.mp hp]; decide)
  have c6 := z1 (st.rc_cal_requested = true) [Packet.rcCalibration]
    (fun p hp => by rw [List.mem_singleton.mp hp]; decide)
  have c5 : (if st.requested_params.isEmpty then []
      else send_requested_params st.requested_params).countP is_console_packet = 0 := by
    by_cases h : st.requested_params.isEmpty
    · rw [if_pos h]; rfl
    · rw [if_neg h]
      exact zc _ (fun p hp => by rw [send_requested_params_rank _ p hp]; omega)
  have c7 : (env.driver_msgs.flatten.map Packet.driverMsg).countP
      is_console_packet = 0 := by
    refine zc _ ?_
    intro p hp
    obtain ⟨x, _, hx⟩ := List.mem_map.mp hp
    rw [← hx]; simp [stream_rank]
  have c8 : (match st.message_queue with
      | [] => []
      | m :: _ => [send_console_message m]).countP is_console_packet ≤ 1 := by
    cases st.message_queue with
    | nil => decide
    | cons m rest =>
        simp only [List.countP_cons, List.countP_nil]
        split <;> omega
  omega

/-- C4: within one iteration the enqueued packets always respect the fixed
stream precedence (status/heartbeat, full dump, RC channels, control
effort, single-parameter replies, calibration, driver messages, console),
at most one console message is enqueued, and the flush hands the transport
a prefix of the queue in FIFO order, the whole queue when no send
faults. -/
theorem C4_enqueue_order (st : LoopState) (env : IterEnv) :
    ((iter_enqueues st env).map stream_rank).Pairwise (fun a b => a ≤ b) ∧
    (iter_enqueues st env).countP is_console_packet ≤ 1 ∧
    (∀ (q : List Packet) (ok : Nat → Bool),
      ∃ k, flush q ok = (q.take k, q.drop k)) ∧
    (∀ (q : List Packet) (ok : Nat → Bool),
      (∀ i, ok i = true) → flush q ok = (q, [])) := by
  exact ⟨iter_enqueues_rank_sorted st env,
    iter_enqueues_console_count st env,
    fun q ok => flush_take_drop q ok,
    fun q ok h => flush_allok q ok h⟩

/-- Witness for C4 on the console demo state: the flush conjunct applied
to a concrete queue with an always-successful transport. -/
theorem C4_enqueue_order_witness :
    flush [Packet.heartbeat, Packet.rcCalibration] (fun _ => true) =
      ([Packet.heartbeat, Packet.rcCalibration], []) := by
  exact (C4_enqueue_order console_demo_state quiet_env).2.2.2
    [Packet.heartbeat, Packet.rcCalibration] (fun _ => true) (fun _ => rfl)

end QGC
